import Mathlib

/-!
Verification of the grid-reconstruction logic of the solar-vision plotting
scripts (Shadow.py, plot_flux_map.py, plot_flux_map_2.py).

The scripts load a long-format CSV and rebuild a dense 2D grid either by
pivoting on (row_index, col_index) keys (pandas `df.pivot`) or by reshaping
the flat value column in row-major order (numpy `reshape`).  Scalar cell
values are IEEE doubles used purely as opaque data (the reconstruction
performs no arithmetic on them), so they are modelled by the inductive type
`Val`: NaN, the two infinities, and finite values tagged by a rational.
-/

/-- A scalar cell value as it appears in the CSV / grid: an IEEE double,
modelled as NaN, positive or negative infinity, or a finite number. -/
inductive Val where
  | nan : Val
  | posinf : Val
  | neginf : Val
  | num : ℚ → Val
deriving DecidableEq, Repr

/-- The largest finite IEEE-754 double, 1.7976931348623157e308, the value
numpy substitutes for positive infinity in `np.nan_to_num`. -/
def maxFloat : ℚ := 17976931348623157 * 10 ^ 292

/-- One CSV row: two integer indices and a scalar value.
`row` is the pivot index column (Y_Index / Z_Index), `col` the pivot columns
column (X_Index / Theta_Index), `val` the value column. -/
structure Sample where
  row : Nat
  col : Nat
  val : Val
deriving DecidableEq, Repr

/-- The (row, col) key of each sample, in input order. -/
def sampleKeys (s : List Sample) : List (Nat × Nat) :=
  s.map fun a => (a.row, a.col)

/-- The distinct elements of a list of naturals, in ascending order. -/
def sortedDistinct (l : List Nat) : List Nat :=
  List.insertionSort (· ≤ ·) l.dedup

/-- The distinct row indices occurring in the samples, in ascending order:
pandas pivot sorts the resulting index. -/
def rowsOf (s : List Sample) : List Nat :=
  sortedDistinct (s.map Sample.row)

/-- The distinct column indices occurring in the samples, in ascending order:
pandas pivot sorts the resulting columns. -/
def colsOf (s : List Sample) : List Nat :=
  sortedDistinct (s.map Sample.col)

/-- The cell value pandas pivot places at key (r, c): the value of the sample
with that key, and NaN when no sample has that key. -/
def lookupVal (s : List Sample) (r c : Nat) : Val :=
  match s.find? (fun a => a.row == r && a.col == c) with
  | some a => a.val
  | none => Val.nan

/-- The dense matrix produced by pandas pivot (`.values` / `.to_numpy()`):
rows are the sorted distinct row indices, columns the sorted distinct column
indices, and each cell holds the sample value at its key, or NaN. -/
def pivotGrid (s : List Sample) : List (List Val) :=
  (rowsOf s).map fun r => (colsOf s).map fun c => lookupVal s r c

/-- The one error pandas `df.pivot` can raise: ValueError on duplicate
(index, columns) keys ("Index contains duplicate entries, cannot reshape"). -/
inductive PivotError where
  | duplicateKeys : PivotError
deriving DecidableEq, Repr

/-- pandas `df.pivot(index=..., columns=..., values=...)` followed by
`.values` / `.to_numpy()`, as called in Shadow.py line 29 and
plot_flux_map.py line 36: fails iff some (row, col) key is duplicated,
otherwise yields the dense NaN-padded grid. -/
def pivot (s : List Sample) : Except PivotError (List (List Val)) :=
  if (sampleKeys s).Nodup then
    Except.ok (pivotGrid s)
  else
    Except.error PivotError.duplicateKeys

/-- The error numpy `ndarray.reshape` raises when the element count does not
match the requested shape (ValueError). -/
inductive ReshapeError where
  | sizeMismatch : ReshapeError
deriving DecidableEq, Repr

/-- The row-major R×C grid whose cell (r, c) is `f r c`. -/
def mkGrid (R C : Nat) (f : Nat → Nat → Val) : List (List Val) :=
  (List.range R).map fun r => (List.range C).map fun c => f r c

/-- numpy `values.reshape((R, C))` as called in plot_flux_map_2.py line 26:
fails iff the flat length is not R*C, otherwise cell (r, c) of the result is
flat element r*C + c (row-major order). -/
def reshape (flat : List Val) (R C : Nat) : Except ReshapeError (List (List Val)) :=
  if flat.length = R * C then
    Except.ok (mkGrid R C fun r c => flat.getD (r * C + c) Val.nan)
  else
    Except.error ReshapeError.sizeMismatch

/-- The row-major enumeration of a complete R×C sample set with value
function f: one sample per key in [0,R)×[0,C). -/
def canonicalSamples (R C : Nat) (f : Nat → Nat → Val) : List Sample :=
  (List.range R).flatMap fun r => (List.range C).map fun c => ⟨r, c, f r c⟩

/-- A sample list covers a complete R×C rectangle with values f when it is a
permutation of the canonical row-major enumeration: exactly one sample per
(r, c) key in [0,R)×[0,C), that sample holding value `f r c`. -/
def completeRC (R C : Nat) (f : Nat → Nat → Val) (s : List Sample) : Prop :=
  s.Perm (canonicalSamples R C f)

instance (R C : Nat) (f : Nat → Nat → Val) (s : List Sample) :
    Decidable (completeRC R C f s) :=
  inferInstanceAs (Decidable (s.Perm (canonicalSamples R C f)))

/-- The sample list obtained by pairing a flat value sequence with row-major
(r, c) keys for an R×C grid. -/
def rowMajorSamples (flat : List Val) (R C : Nat) : List Sample :=
  canonicalSamples R C fun r c => flat.getD (r * C + c) Val.nan

/-- The per-cell action of `np.nan_to_num(x, nan=0.0)` as called in
plot_flux_map.py line 40: NaN becomes 0.0; since the posinf and neginf
arguments are left at their defaults, positive infinity becomes the largest
finite double and negative infinity its negation; finite values pass
through unchanged. -/
def nan_to_num_val : Val → Val
  | Val.nan => Val.num 0
  | Val.posinf => Val.num maxFloat
  | Val.neginf => Val.num (-maxFloat)
  | Val.num q => Val.num q

/-- `np.nan_to_num(flux_grid, nan=0.0)` applied elementwise to the grid. -/
def nan_to_num (g : List (List Val)) : List (List Val) :=
  g.map (List.map nan_to_num_val)

/-- What the claim about NaN replacement asserts of one cell of the output
grid, given the corresponding input cell: NaN maps to exactly 0.0, each
infinity maps to the extreme finite double, finite values are unchanged. -/
def cellSpec (v w : Val) : Prop :=
  (v = Val.nan → w = Val.num 0) ∧
  (v = Val.posinf → w = Val.num maxFloat) ∧
  (v = Val.neginf → w = Val.num (-maxFloat)) ∧
  (∀ q, v = Val.num q → w = Val.num q)

/-- scipy.ndimage.gaussian_filter as called in plot_flux_map_2.py line 37:
the N-dimensional wrapper applies a one-dimensional Gaussian correlation
along each of the two axes whose sigma exceeds the 1e-15 threshold in the
scipy source; when no axis qualifies the input is returned as the output.
The one-dimensional kernel arithmetic is floating point (weights
exp(-x^2 / (2 sigma^2)) normalised to sum 1), so it is taken as a parameter
here; the sigma-threshold gate is the part modelled from the source. -/
def gaussian_filter (filter1d : ℚ → Nat → List (List Val) → List (List Val))
    (sigma : ℚ) (input : List (List Val)) : List (List Val) :=
  let axes := (List.range 2).filter fun _ => decide ((1 : ℚ) / 10 ^ 15 < sigma)
  axes.foldl (fun acc axis => filter1d sigma axis acc) input

/-- The terminal errors of the two script runs, one constructor per entry of
the spec's error taxonomy that the scripts can actually produce. -/
inductive RunError where
  | fileNotFound : RunError
  | missingColumn : RunError
  | pivotFailed : RunError
  | sizeMismatch : RunError
deriving DecidableEq, Repr

/-- A long-format CSV table as loaded by pandas: its header columns and its
rows decoded as samples. `none` at the call sites below models a missing
file (pandas read_csv raising FileNotFoundError). -/
structure Csv where
  cols : List String
  samples : List Sample
deriving Repr

/-- A flux CSV as consumed by plot_flux_map_2.py: its header columns and the
value column read off as a flat sequence. -/
structure FlatCsv where
  cols : List String
  values : List Val
deriving Repr

/-- The data path of plot_heatmap (Shadow.py lines 14-32): read the CSV
(FileNotFoundError is caught, reported and the run aborted), check that the
three required columns are present (otherwise report and abort), then pivot
(a pandas ValueError — duplicate keys — is caught, reported and the run
aborted).  On success the dense matrix is produced. -/
def plot_heatmap (file : Option Csv) : Except RunError (List (List Val)) :=
  match file with
  | none => Except.error RunError.fileNotFound
  | some t =>
    if "X_Index" ∈ t.cols ∧ "Y_Index" ∈ t.cols ∧ "Shading_Efficiency" ∈ t.cols then
      match pivot t.samples with
      | Except.ok g => Except.ok g
      | Except.error _ => Except.error RunError.pivotFailed
    else
      Except.error RunError.missingColumn

/-- The data path of plot_flux_map_2.py lines 23-31: read the CSV, select
the value column, reshape to (GRID_HEIGHT, GRID_WIDTH).  The surrounding
try/except prints the specific exception and exits: a missing file, a
missing value column (KeyError) and a reshape size mismatch (ValueError)
are each reported with their cause and abort the run. -/
def flux_data (file : Option FlatCsv) (R C : Nat) : Except RunError (List (List Val)) :=
  match file with
  | none => Except.error RunError.fileNotFound
  | some t =>
    if "Flux_Density(W/m^2)" ∈ t.cols then
      match reshape t.values R C with
      | Except.ok g => Except.ok g
      | Except.error _ => Except.error RunError.sizeMismatch
    else
      Except.error RunError.missingColumn

/-- The rational 1/10, the exact value 0.1 of the spec's pivot example. -/
def tenth : ℚ := ⟨1, 10, by decide, by decide⟩

/-- The rational 1/5, the exact value 0.2 of the spec's pivot example. -/
def fifth : ℚ := ⟨1, 5, by decide, by decide⟩

/-- The rational 3/10, the exact value 0.3 of the spec's pivot example. -/
def threeTenths : ℚ := ⟨3, 10, by decide, by decide⟩

/-- The rational 2/5, the exact value 0.4 of the spec's pivot example. -/
def twoFifths : ℚ := ⟨2, 5, by decide, by decide⟩

/-- The value function of the spec's 2×2 pivot example: cell (r, c) holds
0.1, 0.2, 0.3, 0.4 in row-major order. -/
def exampleValue (r c : Nat) : Val :=
  if r = 0 then (if c = 0 then Val.num tenth else Val.num fifth)
  else (if c = 0 then Val.num threeTenths else Val.num twoFifths)

/-- The spec's example sample set [(0,0,0.1),(0,1,0.2),(1,0,0.3),(1,1,0.4)]. -/
def exampleSamples : List Sample :=
  [⟨0, 0, Val.num tenth⟩, ⟨0, 1, Val.num fifth⟩,
   ⟨1, 0, Val.num threeTenths⟩, ⟨1, 1, Val.num twoFifths⟩]

/-! ## Helper lemmas -/

theorem sortedDistinct_eq_range (l : List Nat) (R : Nat)
    (hmem : ∀ x, x ∈ l ↔ x < R) : sortedDistinct l = List.range R := by
  apply List.eq_of_perm_of_sorted (r := (· ≤ ·)) ?_
    (List.sorted_insertionSort _ _) (List.sorted_le_range R)
  refine (List.perm_insertionSort _ _).trans ?_
  refine (List.perm_ext_iff_of_nodup l.nodup_dedup (List.nodup_range R)).mpr ?_
  intro x
  simp [List.mem_dedup, hmem, List.mem_range]

theorem sampleKeys_canonical (R C : Nat) (f : Nat → Nat → Val) :
    sampleKeys (canonicalSamples R C f) =
      (List.range R).flatMap fun r => (List.range C).map fun c => (r, c) := by
  simp only [sampleKeys, canonicalSamples, List.map_flatMap, List.map_map]
  rfl

theorem nodup_sampleKeys_canonical (R C : Nat) (f : Nat → Nat → Val) :
    (sampleKeys (canonicalSamples R C f)).Nodup := by
  rw [sampleKeys_canonical]
  refine List.nodup_flatMap.mpr ⟨?_, ?_⟩
  · intro r _
    exact (List.nodup_range C).map fun a b h => congrArg Prod.snd h
  · refine (List.nodup_range R).imp ?_
    intro r r' hne
    intro p hp hp'
    simp only [List.mem_map, List.mem_range] at hp hp'
    obtain ⟨c, _, rfl⟩ := hp
    obtain ⟨c', _, hEq⟩ := hp'
    exact hne (congrArg Prod.fst hEq).symm

theorem sampleKeys_nodup_of_completeRC (R C : Nat) (f : Nat → Nat → Val)
    (s : List Sample) (h : completeRC R C f s) : (sampleKeys s).Nodup := by
  have hperm : s.Perm (canonicalSamples R C f) := h
  have hp : (sampleKeys s).Perm (sampleKeys (canonicalSamples R C f)) :=
    List.Perm.map (fun a : Sample => (a.row, a.col)) hperm
  exact hp.nodup_iff.mpr (nodup_sampleKeys_canonical R C f)

theorem rowsOf_complete (R C : Nat) (f : Nat → Nat → Val) (s : List Sample)
    (hC : 0 < C) (h : completeRC R C f s) : rowsOf s = List.range R := by
  apply sortedDistinct_eq_range
  intro x
  rw [List.Perm.mem_iff (h.map Sample.row)]
  simp only [canonicalSamples, List.map_flatMap, List.mem_flatMap, List.map_map,
    List.mem_map, List.mem_range, Function.comp]
  constructor
  · rintro ⟨r, hr, c, hc, rfl⟩
    exact hr
  · intro hx
    exact ⟨x, hx, 0, hC, rfl⟩

theorem colsOf_complete (R C : Nat) (f : Nat → Nat → Val) (s : List Sample)
    (hR : 0 < R) (h : completeRC R C f s) : colsOf s = List.range C := by
  apply sortedDistinct_eq_range
  intro x
  rw [List.Perm.mem_iff (h.map Sample.col)]
  simp only [canonicalSamples, List.map_flatMap, List.mem_flatMap, List.map_map,
    List.mem_map, List.mem_range, Function.comp]
  constructor
  · rintro ⟨r, hr, c, hc, rfl⟩
    exact hc
  · intro hx
    exact ⟨0, hR, x, hx, rfl⟩

theorem mem_of_completeRC (R C : Nat) (f : Nat → Nat → Val) (s : List Sample)
    (h : completeRC R C f s) (r c : Nat) (hr : r < R) (hc : c < C) :
    (⟨r, c, f r c⟩ : Sample) ∈ s := by
  rw [h.mem_iff]
  simp only [canonicalSamples, List.mem_flatMap, List.mem_map, List.mem_range]
  exact ⟨r, hr, c, hc, rfl⟩

theorem lookupVal_complete (R C : Nat) (f : Nat → Nat → Val) (s : List Sample)
    (h : completeRC R C f s) (r c : Nat) (hr : r < R) (hc : c < C) :
    lookupVal s r c = f r c := by
  have hmem := mem_of_completeRC R C f s h r c hr hc
  have hnodup := sampleKeys_nodup_of_completeRC R C f s h
  unfold lookupVal
  cases hfind : s.find? (fun a => a.row == r && a.col == c) with
  | none =>
    exfalso
    have := List.find?_eq_none.mp hfind _ hmem
    simp at this
  | some a =>
    have hpa := List.find?_some hfind
    have hamem := List.mem_of_find?_eq_some hfind
    simp only [Bool.and_eq_true, beq_iff_eq] at hpa
    have hEq : a = ⟨r, c, f r c⟩ := by
      have hinj := List.inj_on_of_nodup_map (f := fun a : Sample => (a.row, a.col)) hnodup
      exact hinj hamem hmem (by simp [hpa.1, hpa.2])
    rw [hEq]

theorem pivot_of_completeRC (R C : Nat) (f : Nat → Nat → Val) (s : List Sample)
    (hR : 0 < R) (hC : 0 < C) (h : completeRC R C f s) :
    pivot s = Except.ok (mkGrid R C f) := by
  have hnodup := sampleKeys_nodup_of_completeRC R C f s h
  unfold pivot
  rw [if_pos hnodup]
  congr 1
  rw [pivotGrid, rowsOf_complete R C f s hC h, colsOf_complete R C f s hR h, mkGrid]
  apply List.map_congr_left
  intro r hr
  apply List.map_congr_left
  intro c hc
  exact lookupVal_complete R C f s h r c (List.mem_range.mp hr) (List.mem_range.mp hc)

theorem getD_mkGrid (R C : Nat) (f : Nat → Nat → Val) (r c : Nat)
    (hr : r < R) (hc : c < C) (d : Val) :
    ((mkGrid R C f).getD r []).getD c d = f r c := by
  simp [mkGrid, List.getD_eq_getElem?_getD, List.getElem?_map, List.getElem?_range, hr, hc]

/-! ## Claim theorems -/

/-- C1: for every well-formed sample set covering a complete R×C rectangle
(exactly one sample per (r, c) key in [0,R)×[0,C)), pivot reconstruction
succeeds and produces the R×C grid whose cell (r, c) holds the unique sample
value at that key. -/
theorem pivot_complete_rectangle_correct (R C : Nat) (f : Nat → Nat → Val)
    (s : List Sample) (hR : 0 < R) (hC : 0 < C) (h : completeRC R C f s) :
    pivot s = Except.ok (mkGrid R C f) ∧
    ∀ r c, r < R → c < C → ((mkGrid R C f).getD r []).getD c Val.nan = f r c :=
  ⟨pivot_of_completeRC R C f s hR hC h,
   fun r c hr hc => getD_mkGrid R C f r c hr hc Val.nan⟩

/-- Witness for C1: the spec's samples [(0,0,0.1),(0,1,0.2),(1,0,0.3),(1,1,0.4)]
with R = C = 2 pivot to [[0.1,0.2],[0.3,0.4]]. -/
theorem pivot_complete_rectangle_correct_witness :
    pivot exampleSamples =
      Except.ok [[Val.num tenth, Val.num fifth], [Val.num threeTenths, Val.num twoFifths]] ∧
    ((mkGrid 2 2 exampleValue).getD 1 []).getD 0 Val.nan = exampleValue 1 0 := by
  have hgrid : mkGrid 2 2 exampleValue =
      [[Val.num tenth, Val.num fifth], [Val.num threeTenths, Val.num twoFifths]] := by decide
  constructor
  · rw [← hgrid]
    exact (pivot_complete_rectangle_correct 2 2 exampleValue exampleSamples
      (by decide) (by decide) (by decide)).1
  · exact (pivot_complete_rectangle_correct 2 2 exampleValue exampleSamples
      (by decide) (by decide) (by decide)).2 1 0 (by decide) (by decide)

/-- C9: pivot reconstruction of a complete R×C sample set is invariant under
any permutation of the input samples, and the resulting grid is ordered by
ascending row and column index (row r of the grid is index value r), not by
input order. -/
theorem pivot_permutation_invariant (R C : Nat) (f : Nat → Nat → Val)
    (s s' : List Sample) (hR : 0 < R) (hC : 0 < C)
    (h : completeRC R C f s) (hperm : s.Perm s') :
    pivot s' = pivot s ∧ pivot s = Except.ok (mkGrid R C f) := by
  have h' : completeRC R C f s' := List.Perm.trans hperm.symm h
  rw [pivot_of_completeRC R C f s hR hC h, pivot_of_completeRC R C f s' hR hC h']
  exact ⟨rfl, rfl⟩

/-- Witness for C9: reversing the spec's 2×2 example samples leaves the
pivot result unchanged. -/
theorem pivot_permutation_invariant_witness :
    pivot [⟨1, 1, Val.num twoFifths⟩, ⟨1, 0, Val.num threeTenths⟩,
           ⟨0, 1, Val.num fifth⟩, ⟨0, 0, Val.num tenth⟩] = pivot exampleSamples ∧
    pivot exampleSamples = Except.ok (mkGrid 2 2 exampleValue) :=
  pivot_permutation_invariant 2 2 exampleValue exampleSamples
    [⟨1, 1, Val.num twoFifths⟩, ⟨1, 0, Val.num threeTenths⟩,
     ⟨0, 1, Val.num fifth⟩, ⟨0, 0, Val.num tenth⟩]
    (by decide) (by decide) (by decide) (by decide)

/-- C2: when the flat value sequence has length R*C, reshape-by-order
reconstruction succeeds, and it yields exactly the grid that pivot-by-key
reconstruction produces from the same values enumerated as samples in
row-major (r, c) order. -/
theorem reshape_row_major_agrees_pivot (flat : List Val) (R C : Nat)
    (hR : 0 < R) (hC : 0 < C) (hlen : flat.length = R * C) :
    reshape flat R C = Except.ok (mkGrid R C fun r c => flat.getD (r * C + c) Val.nan) ∧
    pivot (rowMajorSamples flat R C) =
      Except.ok (mkGrid R C fun r c => flat.getD (r * C + c) Val.nan) := by
  constructor
  · unfold reshape
    rw [if_pos hlen]
  · exact pivot_of_completeRC R C _ (rowMajorSamples flat R C) hR hC (List.Perm.refl _)

/-- Witness for C2: the flat sequence [10,20,30,40,50,60] with R = 2, C = 3
reshapes to [[10,20,30],[40,50,60]], and pivoting its row-major sample
enumeration gives the same grid. -/
theorem reshape_row_major_agrees_pivot_witness :
    reshape [Val.num 10, Val.num 20, Val.num 30, Val.num 40, Val.num 50, Val.num 60] 2 3 =
      Except.ok [[Val.num 10, Val.num 20, Val.num 30], [Val.num 40, Val.num 50, Val.num 60]] ∧
    pivot (rowMajorSamples
        [Val.num 10, Val.num 20, Val.num 30, Val.num 40, Val.num 50, Val.num 60] 2 3) =
      Except.ok [[Val.num 10, Val.num 20, Val.num 30], [Val.num 40, Val.num 50, Val.num 60]] := by
  have hgrid : mkGrid 2 3 (fun r c =>
      [Val.num 10, Val.num 20, Val.num 30, Val.num 40, Val.num 50,
        Val.num 60].getD (r * 3 + c) Val.nan) =
      [[Val.num 10, Val.num 20, Val.num 30], [Val.num 40, Val.num 50, Val.num 60]] := by decide
  have h := reshape_row_major_agrees_pivot
    [Val.num 10, Val.num 20, Val.num 30, Val.num 40, Val.num 50, Val.num 60] 2 3
    (by decide) (by decide) (by decide)
  exact ⟨hgrid ▸ h.1, hgrid ▸ h.2⟩

/-- Counterexample for C3: the incomplete sample set {(0,0),(1,1)} — keys
(0,1) and (1,0) are missing — does not make pivot reconstruction raise; it
silently produces a grid padded with NaN at the missing keys. -/
theorem pivot_missing_key_no_error :
    pivot [⟨0, 0, Val.num 1⟩, ⟨1, 1, Val.num 2⟩] =
      Except.ok [[Val.num 1, Val.nan], [Val.nan, Val.num 2]] := by
  rfl

/-- C3 (amended): pivot reconstruction never fails on a merely incomplete
key set: whenever the keys are distinct it succeeds, and every missing
(r, c) key is looked up as NaN (silent NaN padding, not a ShapeError). -/
theorem pivot_incomplete_pads_nan (s : List Sample)
    (hnodup : (sampleKeys s).Nodup) :
    pivot s = Except.ok (pivotGrid s) ∧
    ∀ r c, (r, c) ∉ sampleKeys s → lookupVal s r c = Val.nan := by
  constructor
  · unfold pivot
    rw [if_pos hnodup]
  · intro r c hmiss
    unfold lookupVal
    have hnone : s.find? (fun a => a.row == r && a.col == c) = none := by
      rw [List.find?_eq_none]
      intro a ha hpa
      simp only [Bool.and_eq_true, beq_iff_eq] at hpa
      refine hmiss ?_
      have hkey : (a.row, a.col) ∈ sampleKeys s := List.mem_map.mpr ⟨a, ha, rfl⟩
      rwa [hpa.1, hpa.2] at hkey
    rw [hnone]

/-- Witness for C3 (amended): on the incomplete set {(0,0),(1,1)} pivot
succeeds and the missing key (0,1) is looked up as NaN. -/
theorem pivot_incomplete_pads_nan_witness :
    pivot [⟨0, 0, Val.num 1⟩, ⟨1, 1, Val.num 2⟩] =
      Except.ok (pivotGrid [⟨0, 0, Val.num 1⟩, ⟨1, 1, Val.num 2⟩]) ∧
    lookupVal [⟨0, 0, Val.num 1⟩, ⟨1, 1, Val.num 2⟩] 0 1 = Val.nan :=
  ⟨(pivot_incomplete_pads_nan [⟨0, 0, Val.num 1⟩, ⟨1, 1, Val.num 2⟩] (by decide)).1,
   (pivot_incomplete_pads_nan [⟨0, 0, Val.num 1⟩, ⟨1, 1, Val.num 2⟩] (by decide)).2
     0 1 (by decide)⟩

/-- C10: pivot reconstruction of a sample sequence with a duplicated
(row, col) key fails with the duplicate-key error; no grid is produced and
no conflicting value is silently chosen. -/
theorem pivot_duplicate_keys_error (s : List Sample)
    (hdup : ¬ (sampleKeys s).Nodup) :
    pivot s = Except.error PivotError.duplicateKeys := by
  unfold pivot
  rw [if_neg hdup]

/-- Witness for C10: two samples sharing key (0,0) make pivot fail. -/
theorem pivot_duplicate_keys_error_witness :
    pivot [⟨0, 0, Val.num 1⟩, ⟨0, 0, Val.num 2⟩] =
      Except.error PivotError.duplicateKeys :=
  pivot_duplicate_keys_error [⟨0, 0, Val.num 1⟩, ⟨0, 0, Val.num 2⟩] (by decide)

/-- C4: reshape-by-order reconstruction of a flat sequence whose length is
not R*C fails with the size-mismatch error and produces no grid. -/
theorem reshape_wrong_length_error (flat : List Val) (R C : Nat)
    (hlen : flat.length ≠ R * C) :
    reshape flat R C = Except.error ReshapeError.sizeMismatch := by
  unfold reshape
  rw [if_neg hlen]

/-- Witness for C4: one value cannot be reshaped into a 2×3 grid. -/
theorem reshape_wrong_length_error_witness :
    reshape [Val.num 1] 2 3 = Except.error ReshapeError.sizeMismatch :=
  reshape_wrong_length_error [Val.num 1] 2 3 (by decide)

/-- Counterexample for C6: a grid cell holding positive infinity is not left
unchanged by the NaN-replacement step: np.nan_to_num with only nan=0.0
given also rewrites infinities to the extreme finite doubles. -/
theorem nan_to_num_alters_infinity :
    nan_to_num [[Val.posinf, Val.num 7]] = [[Val.num maxFloat, Val.num 7]] ∧
    Val.num maxFloat ≠ Val.posinf :=
  ⟨rfl, by simp⟩

/-- C6 (amended): the NaN-replacement step maps every NaN cell to exactly
0.0 and leaves every finite cell unchanged; the two infinities are mapped to
the largest finite double and its negation respectively. -/
theorem nan_to_num_cellwise (g : List (List Val)) :
    nan_to_num g = g.map (List.map nan_to_num_val) ∧
    List.Forall₂ (List.Forall₂ cellSpec) g (nan_to_num g) := by
  refine ⟨rfl, ?_⟩
  unfold nan_to_num
  rw [List.forall₂_map_right_iff]
  refine List.forall₂_same.mpr fun row _ => ?_
  rw [List.forall₂_map_right_iff]
  refine List.forall₂_same.mpr fun v _ => ?_
  cases v <;> simp [cellSpec, nan_to_num_val]

/-- Witness for C6 (amended), at a grid holding a NaN and a finite value. -/
theorem nan_to_num_cellwise_witness :
    nan_to_num [[Val.nan, Val.num 3]] = [[Val.nan, Val.num 3]].map (List.map nan_to_num_val) ∧
    List.Forall₂ (List.Forall₂ cellSpec) [[Val.nan, Val.num 3]]
      (nan_to_num [[Val.nan, Val.num 3]]) :=
  nan_to_num_cellwise [[Val.nan, Val.num 3]]

/-- C7: the Gaussian-blur post-processing step with sigma = 0 returns the
input grid unchanged, whatever the underlying one-dimensional filter does:
no axis passes the sigma > 1e-15 gate, so no filtering is applied. -/
theorem gaussian_blur_sigma_zero_identity
    (filter1d : ℚ → Nat → List (List Val) → List (List Val))
    (g : List (List Val)) :
    gaussian_filter filter1d 0 g = g := by
  have hd : (decide ((1 : ℚ) / 10 ^ 15 < 0)) = false := by
    apply decide_eq_false
    norm_num
  unfold gaussian_filter
  simp only [hd]
  rfl

/-- Witness for C7, at a concrete one-cell grid and a concrete filter. -/
theorem gaussian_blur_sigma_zero_identity_witness :
    gaussian_filter (fun _ _ g => g) 0 [[Val.num 5]] = [[Val.num 5]] :=
  gaussian_blur_sigma_zero_identity (fun _ _ g => g) [[Val.num 5]]

/-- C8: grid reconstruction is a pure transform: two runs of pivot on equal
sample sequences and two runs of reshape on equal flat sequences return
equal results (in this functional model the inputs are values, so they
cannot be mutated). -/
theorem reconstruction_pure (s₁ s₂ : List Sample) (flat₁ flat₂ : List Val)
    (R C : Nat) (hs : s₁ = s₂) (hf : flat₁ = flat₂) :
    pivot s₁ = pivot s₂ ∧ reshape flat₁ R C = reshape flat₂ R C := by
  subst hs
  subst hf
  exact ⟨rfl, rfl⟩

/-- Witness for C8, at concrete equal inputs. -/
theorem reconstruction_pure_witness :
    pivot [⟨0, 0, Val.num 1⟩] = pivot [⟨0, 0, Val.num 1⟩] ∧
    reshape [Val.num 1] 1 1 = reshape [Val.num 1] 1 1 :=
  reconstruction_pure [⟨0, 0, Val.num 1⟩] [⟨0, 0, Val.num 1⟩]
    [Val.num 1] [Val.num 1] 1 1 rfl rfl

/-- Counterexample for C5: an incomplete pivot grid is not surfaced as an
error: the plot_heatmap run on a present file with all required columns and
the incomplete sample set {(0,0),(1,1)} completes with a NaN-padded grid
instead of aborting with a ShapeError. -/
theorem incomplete_grid_run_no_error :
    plot_heatmap (some ⟨["X_Index", "Y_Index", "Shading_Efficiency"],
        [⟨0, 0, Val.num 1⟩, ⟨1, 1, Val.num 2⟩]⟩) =
      Except.ok [[Val.num 1, Val.nan], [Val.nan, Val.num 2]] := by
  rfl

/-- C5 (amended): every error the scripts can actually hit — missing input
file, missing required column, duplicate-key pivot failure, reshape size
mismatch — is surfaced with its specific cause and aborts the run with no
grid; the transform is one-shot, so no retry exists.  An incomplete pivot
key set, however, is not an error (see the counterexample): it yields a
NaN-padded grid. -/
theorem error_taxonomy_surfaced :
    plot_heatmap none = Except.error RunError.fileNotFound ∧
    (∀ R C, flux_data none R C = Except.error RunError.fileNotFound) ∧
    (∀ t : Csv,
      ¬ ("X_Index" ∈ t.cols ∧ "Y_Index" ∈ t.cols ∧ "Shading_Efficiency" ∈ t.cols) →
      plot_heatmap (some t) = Except.error RunError.missingColumn) ∧
    (∀ t : FlatCsv, "Flux_Density(W/m^2)" ∉ t.cols →
      ∀ R C, flux_data (some t) R C = Except.error RunError.missingColumn) ∧
    (∀ t : Csv,
      ("X_Index" ∈ t.cols ∧ "Y_Index" ∈ t.cols ∧ "Shading_Efficiency" ∈ t.cols) →
      ¬ (sampleKeys t.samples).Nodup →
      plot_heatmap (some t) = Except.error RunError.pivotFailed) ∧
    (∀ t : FlatCsv, "Flux_Density(W/m^2)" ∈ t.cols → ∀ R C,
      t.values.length ≠ R * C →
      flux_data (some t) R C = Except.error RunError.sizeMismatch) := by
  refine ⟨rfl, fun R C => rfl, ?_, ?_, ?_, ?_⟩
  · intro t hcols
    simp [plot_heatmap, hcols]
  · intro t hcol R C
    simp [flux_data, hcol]
  · intro t hcols hdup
    simp [plot_heatmap, pivot, hcols.1, hcols.2.1, hcols.2.2, hdup]
  · intro t hcol R C hlen
    simp [flux_data, reshape, hcol, hlen]

/-- Witness for C5 (amended): one concrete run per error of the taxonomy. -/
theorem error_taxonomy_surfaced_witness :
    plot_heatmap none = Except.error RunError.fileNotFound ∧
    flux_data none 2 2 = Except.error RunError.fileNotFound ∧
    plot_heatmap (some ⟨["Y_Index"], []⟩) = Except.error RunError.missingColumn ∧
    flux_data (some ⟨[], [Val.num 1]⟩) 1 1 = Except.error RunError.missingColumn ∧
    plot_heatmap (some ⟨["X_Index", "Y_Index", "Shading_Efficiency"],
        [⟨0, 0, Val.num 1⟩, ⟨0, 0, Val.num 2⟩]⟩) = Except.error RunError.pivotFailed ∧
    flux_data (some ⟨["Flux_Density(W/m^2)"], [Val.num 1]⟩) 2 3 =
      Except.error RunError.sizeMismatch :=
  ⟨error_taxonomy_surfaced.1,
   error_taxonomy_surfaced.2.1 2 2,
   error_taxonomy_surfaced.2.2.1 ⟨["Y_Index"], []⟩ (by decide),
   error_taxonomy_surfaced.2.2.2.1 ⟨[], [Val.num 1]⟩ (by decide) 1 1,
   error_taxonomy_surfaced.2.2.2.2.1 ⟨["X_Index", "Y_Index", "Shading_Efficiency"],
       [⟨0, 0, Val.num 1⟩, ⟨0, 0, Val.num 2⟩]⟩ (by decide) (by decide),
   error_taxonomy_surfaced.2.2.2.2.2 ⟨["Flux_Density(W/m^2)"], [Val.num 1]⟩
     (by decide) 2 3 (by decide)⟩
